import Mathlib

/-!
Formal model of the hireqa backend's credential and verification-token
lifecycle, shallowly embedding app/routes.py.  The remote store (supabase
"jobseeker" and "jobseeker_personal_details" tables) is a pure state threaded
through each handler; fallible external effects (store writes, email dispatch)
take their outcome as an explicit boolean input; the clock is an explicit
`now : Nat` parameter (seconds); the per-call random salt of the password hash
is an explicit input.
-/

namespace HireQA

/-- An opaque credential hash: the per-call salt together with a digest derived
from the plaintext and the salt. -/
structure OpaqueHash where
  salt : Nat
  digest : Nat
deriving DecidableEq, Repr

/-- Modelled from the spec: the bcrypt digest inside passlib's `CryptContext`
(routes.py line 22) is third-party code absent from the repository; per spec
§4.2 it is a salted, one-way function of the plaintext.  The concrete mixing
below stands in for bcrypt's key derivation; the properties proved about it
(determinism in plaintext and salt) are the ones the spec relies on. -/
def bcryptDigest (p : String) (salt : Nat) : Nat :=
  p.toList.foldl (fun acc c => acc * 31 + c.toNat + 1) salt

/-- Hash password using bcrypt (routes.py `get_password_hash`); passlib draws a
fresh random salt per call, which the model takes as an explicit input. -/
def get_password_hash (password : String) (salt : Nat) : OpaqueHash :=
  ⟨salt, bcryptDigest password salt⟩

/-- Verify password using bcrypt (routes.py `verify_password`): passlib raises
on a malformed stored hash, the wrapper catches every exception and returns
false.  The second argument is the parse of the stored hash string, `none`
when malformed. -/
def verify_password (plain_password : String) (hashed_password : Option OpaqueHash) : Bool :=
  match hashed_password with
  | none => false
  | some h => bcryptDigest plain_password h.salt == h.digest

/-- A stateless session credential (bearer token payload). -/
structure SessionCredential where
  subject : String
  issuedAt : Nat
  expiresAt : Nat
deriving DecidableEq, Repr

/-- Modelled from the spec: `create_access_token` lives in app/jwt_handler.py,
which is not among the provided sources; per spec §3 and §4.5 the session
credential is a signed payload with subject, issue time, and expiry
`issuedAt + delta`.  routes.py passes `data = (sub, email)` and
`expires_delta = 30 minutes`. -/
def create_access_token (sub : String) (now : Nat) (expires_delta : Nat) : SessionCredential :=
  ⟨sub, now, now + expires_delta⟩

/-- A row of the "jobseeker" table, with the columns routes.py reads or writes.
`password` is the stored credential hash: the outer `Option` is `none` when the
column is null or the empty string (Python falsiness, line 147 of routes.py),
and the inner `Option` is the parse of the stored string, `none` when it is
present but not a well-formed hash. -/
structure Account where
  candidate_id : Nat
  first_name : String
  middle_name : Option String
  last_name : String
  email : String
  username : String
  password : Option (Option OpaqueHash)
  phone_number : String
  accepted_TandC : Bool
  is_email_verified : Bool
  current_job_location : String
  role_type : String
  email_verification_token : Option String
  email_verification_token_expires : Option Nat
  email_verified_at : Option Nat
deriving DecidableEq, Repr

/-- A row of the "jobseeker_personal_details" table. -/
structure PersonalDetails where
  candidate_id : Nat
  dob : String
  gender : String
deriving DecidableEq, Repr

/-- The remote store: both tables routes.py touches. -/
structure DB where
  jobseeker : List Account
  personal : List PersonalDetails
deriving DecidableEq, Repr

/-- Response of the login endpoint (routes.py `login_for_access_token`). -/
inductive LoginResp where
  | invalidCredentials
  | accountIncomplete
  | emailNotVerified
  | token (cred : SessionCredential)
deriving DecidableEq, Repr

/-- HTTP status of each login outcome, as raised in routes.py. -/
def LoginResp.status : LoginResp → Nat
  | .invalidCredentials => 401
  | .accountIncomplete => 401
  | .emailNotVerified => 403
  | .token _ => 200

/-- Detail message of each login failure, verbatim from routes.py. -/
def LoginResp.detail : LoginResp → String
  | .invalidCredentials => "Incorrect email or password"
  | .accountIncomplete => "Account setup incomplete. Please contact support."
  | .emailNotVerified => "Email not verified. Please check your email for verification link."
  | .token _ => ""

/-- Login endpoint (routes.py lines 119-194): look up by email, check stored
hash presence, verify password, check verification state, then issue a
30-minute bearer token with subject the account's email. -/
def login_for_access_token (db : List Account) (now : Nat) (email password : String) :
    LoginResp :=
  match db.find? (fun a => a.email == email) with
  | none => .invalidCredentials
  | some user =>
    match user.password with
    | none => .accountIncomplete
    | some stored =>
      if verify_password password stored then
        if user.is_email_verified then
          .token (create_access_token user.email now (30 * 60))
        else
          .emailNotVerified
      else
        .invalidCredentials

/-- Response of the verify-email endpoint (routes.py `verify_email`). -/
inductive VerifyResult where
  | invalidToken
  | tokenExpired
  | alreadyVerified
  | verified
  | updateFailed
deriving DecidableEq, Repr

/-- HTTP status of each verify-email outcome, as returned in routes.py
(VERIFY_001 and VERIFY_002 are 400, already-verified and success are 200,
VERIFY_003 is 500). -/
def VerifyResult.status : VerifyResult → Nat
  | .invalidToken => 400
  | .tokenExpired => 400
  | .alreadyVerified => 200
  | .verified => 200
  | .updateFailed => 500

/-- Whether the stored expiry has passed: routes.py guards the comparison with
a truthiness check on the column, so a null (or empty) expiry is never
expired.  A null or empty column is `none` here. -/
def tokenExpiredAt (expires : Option Nat) (now : Nat) : Bool :=
  match expires with
  | some exp => decide (exp < now)
  | none => false

/-- The update routes.py performs on successful verification, applied to the
rows matching the found account's candidate_id. -/
def markVerified (cid now : Nat) (a : Account) : Account :=
  if a.candidate_id == cid then
    { a with is_email_verified := true,
             email_verification_token := none,
             email_verification_token_expires := none,
             email_verified_at := some now }
  else a

/-- Verify-email endpoint (routes.py lines 447-512): look up the account whose
stored token equals the query token (an SQL equality, which never matches a
null column), return InvalidToken if absent, TokenExpired if the stored expiry
has passed, AlreadyVerified if the account is already verified, and otherwise
mark the account verified and clear the token fields.  `updateOk` is the
outcome of the store write; when it is false the store is unchanged and the
endpoint returns VERIFY_003. -/
def verify_email (db : List Account) (now : Nat) (updateOk : Bool) (token : String) :
    VerifyResult × List Account :=
  match db.find? (fun a => a.email_verification_token == some token) with
  | none => (.invalidToken, db)
  | some user =>
    if tokenExpiredAt user.email_verification_token_expires now then
      (.tokenExpired, db)
    else if user.is_email_verified then
      (.alreadyVerified, db)
    else if updateOk then
      (.verified, db.map (markVerified user.candidate_id now))
    else
      (.updateFailed, db)

/-- Response of the resend-verification endpoint. -/
inductive ResendResp where
  | notFound
  | alreadyVerified
  | updateFailed
  | emailFailed
  | ok
deriving DecidableEq, Repr

/-- HTTP status of each resend outcome, as returned in routes.py (RESEND_001
is 404, RESEND_002 is 400, RESEND_003 and RESEND_004 are 500). -/
def ResendResp.status : ResendResp → Nat
  | .notFound => 404
  | .alreadyVerified => 400
  | .updateFailed => 500
  | .emailFailed => 500
  | .ok => 200

/-- Resend-verification endpoint (routes.py lines 529-607): look up by email,
reject if absent or already verified, store a fresh token with a 24-hour
expiry, then dispatch the email; a dispatch failure is returned as RESEND_004
with status 500.  `updateOk` and `emailOk` are the outcomes of the store write
and of the dispatch. -/
def resend_verification_email (db : List Account) (email newToken : String) (now : Nat)
    (updateOk emailOk : Bool) : ResendResp × List Account :=
  match db.find? (fun a => a.email == email) with
  | none => (.notFound, db)
  | some user =>
    if user.is_email_verified then
      (.alreadyVerified, db)
    else if !updateOk then
      (.updateFailed, db)
    else
      let db' := db.map (fun a =>
        if a.candidate_id == user.candidate_id then
          { a with email_verification_token := some newToken,
                   email_verification_token_expires := some (now + 24 * 60 * 60) }
        else a)
      if emailOk then (.ok, db') else (.emailFailed, db')

/-- An externally visible call the handler makes against the store, the hasher
or the mailer, in order of occurrence. -/
inductive Ev where
  | selectEmail (email : String)
  | selectUsername (username : String)
  | hashPw
  | insertJobseeker (cid : Nat)
  | insertPersonal (cid : Nat)
  | deleteJobseeker (cid : Nat)
  | updateJobseeker (email : String)
  | sendEmail (email : String)
deriving DecidableEq, Repr

/-- Response of the signup endpoint (error codes SIGNUP_001..SIGNUP_009). -/
inductive SignupResp where
  | weakPassword (score : Nat)
  | dupEmail
  | dupUsername
  | invalidDate
  | insertFailed
  | personalFailed
  | success (candidate_id : Nat) (email_sent : Bool)
deriving DecidableEq, Repr

/-- HTTP status of each signup outcome, as returned in routes.py. -/
def SignupResp.status : SignupResp → Nat
  | .weakPassword _ => 400
  | .dupEmail => 400
  | .dupUsername => 400
  | .invalidDate => 400
  | .insertFailed => 500
  | .personalFailed => 500
  | .success _ _ => 200

/-- Password strength gate (routes.py `validate_password`): rejects when the
zxcvbn score is below 2.  zxcvbn is third-party; the score it computed for the
submitted password is the input. -/
def validate_password (score : Nat) : Option SignupResp :=
  if score < 2 then some (.weakPassword score) else none

/-- The form fields of the signup request that end up in the store. -/
structure SignupForm where
  first_name : String
  last_name : String
  email_id : String
  username : String
  phone_number : String
  gender : String
  role_type : String
  location : String
  dob : String
  accepted_terms_policy : Bool
  middle_name : String
deriving DecidableEq, Repr

/-- The jobseeker row routes.py inserts at signup (lines 357-371). -/
def newAccount (form : SignupForm) (hashed : OpaqueHash) (vtoken : String) (now cid : Nat) :
    Account :=
  { candidate_id := cid
    first_name := form.first_name
    middle_name := if form.middle_name = "" then none else some form.middle_name
    last_name := form.last_name
    email := form.email_id
    username := form.username
    password := some (some hashed)
    phone_number := form.phone_number
    accepted_TandC := form.accepted_terms_policy
    is_email_verified := false
    current_job_location := form.location
    role_type := form.role_type
    email_verification_token := some vtoken
    email_verification_token_expires := some (now + 24 * 60 * 60)
    email_verified_at := none }

/-- Signup endpoint (routes.py lines 286-443), with the outcomes of the
external calls as explicit inputs: `score` is the zxcvbn score of the
password, `dobValid` whether the date parsed, `hashed` the hash bcrypt
produced, `vtoken` the generated verification token, `newCid` the store-chosen
candidate_id, and the four booleans the outcomes of the account insert, the
personal-details insert, the compensating delete, and the email dispatch.
Returned alongside the response are the final store and the ordered trace of
external calls.  Note the source never inspects the result of the
compensating delete: the response and trace are the same whether it succeeded
or not. -/
def jobseeker_signup (db : DB) (form : SignupForm) (score : Nat) (dobValid : Bool)
    (hashed : OpaqueHash) (vtoken : String) (now newCid : Nat)
    (insertOk personalOk deleteOk emailOk : Bool) :
    SignupResp × DB × List Ev :=
  match validate_password score with
  | some err => (err, db, [])
  | none =>
    if db.jobseeker.any (fun a => a.email == form.email_id) then
      (.dupEmail, db, [.selectEmail form.email_id])
    else if db.jobseeker.any (fun a => a.username == form.username) then
      (.dupUsername, db, [.selectEmail form.email_id, .selectUsername form.username])
    else if !dobValid then
      (.invalidDate, db, [.selectEmail form.email_id, .selectUsername form.username])
    else
      let acct := newAccount form hashed vtoken now newCid
      let tr0 : List Ev := [.selectEmail form.email_id, .selectUsername form.username,
                            .hashPw, .insertJobseeker newCid]
      if !insertOk then
        (.insertFailed, db, tr0)
      else
        let db1 : DB := { db with jobseeker := db.jobseeker ++ [acct] }
        let tr1 := tr0 ++ [.insertPersonal newCid]
        if !personalOk then
          let tr2 := tr1 ++ [.deleteJobseeker newCid]
          if deleteOk then
            (.personalFailed,
             { db1 with jobseeker := db1.jobseeker.filter (fun a => !(a.candidate_id == newCid)) },
             tr2)
          else
            (.personalFailed, db1, tr2)
        else
          let db2 : DB :=
            { db1 with personal := db1.personal ++
                [{ candidate_id := newCid, dob := form.dob, gender := form.gender }] }
          (.success newCid emailOk, db2, tr1 ++ [.sendEmail form.email_id])

/-- Response of the debug reset-password endpoint (all its responses are plain
dictionaries served with status 200). -/
inductive ResetResp where
  | userNotFound
  | updateFailed
  | ok
deriving DecidableEq, Repr

/-- Debug reset-password endpoint (routes.py lines 198-224): look up by email,
hash the submitted password, store the hash.  `score` is the zxcvbn score of
the submitted password, which this endpoint never consults — no
validate_password call appears on this path in the source. -/
def debug_reset_password (db : List Account) (email : String) (score : Nat)
    (newHash : OpaqueHash) (updateOk : Bool) : ResetResp × List Account × List Ev :=
  match db.find? (fun a => a.email == email) with
  | none => (.userNotFound, db, [.selectEmail email])
  | some _ =>
    if updateOk then
      (.ok,
       db.map (fun a => if a.email == email then { a with password := some (some newHash) } else a),
       [.selectEmail email, .hashPw, .updateJobseeker email])
    else
      (.updateFailed, db, [.selectEmail email, .hashPw, .updateJobseeker email])

/-! Concrete fixtures used by witnesses and counterexamples. -/

/-- A signup form fixture. -/
def sampleForm : SignupForm :=
  { first_name := "Alice", last_name := "Baker", email_id := "a@x.com", username := "alice",
    phone_number := "1234567890", gender := "other", role_type := "jobseeker", location := "Pune",
    dob := "2000-01-01", accepted_terms_policy := true, middle_name := "" }

/-- An unverified account holding token "tok" expiring at time 1000, with the
stored hash of password "pw". -/
def sampleAccount : Account :=
  { candidate_id := 7, first_name := "Alice", middle_name := none, last_name := "Baker",
    email := "a@x.com", username := "alice",
    password := some (some (get_password_hash "pw" 5)),
    phone_number := "1234567890", accepted_TandC := true, is_email_verified := false,
    current_job_location := "Pune", role_type := "jobseeker",
    email_verification_token := some "tok", email_verification_token_expires := some 1000,
    email_verified_at := none }

/-- The same account already verified. -/
def sampleVerified : Account :=
  { sampleAccount with is_email_verified := true }

/-- The same account with a null stored credential hash. -/
def sampleNoPassword : Account :=
  { sampleAccount with password := none }

/-- The same account with a null token-expiry column. -/
def sampleNullExpiry : Account :=
  { sampleAccount with email_verification_token_expires := none }

/-- C3: for every password whose policy score is below 2, signup returns
WeakPassword with status 400, leaves the store unchanged, and performs zero
external calls — in particular no insert, delete or update. -/
theorem c3_weak_password_no_writes (db : DB) (form : SignupForm) (score : Nat)
    (dobValid : Bool) (hashed : OpaqueHash) (vtoken : String) (now newCid : Nat)
    (insertOk personalOk deleteOk emailOk : Bool) (h : score < 2) :
    jobseeker_signup db form score dobValid hashed vtoken now newCid
        insertOk personalOk deleteOk emailOk = (.weakPassword score, db, []) ∧
    (SignupResp.weakPassword score).status = 400 := by
  constructor
  · simp [jobseeker_signup, validate_password, h]
  · rfl

/-- C3 witness: the theorem applied at score 0 on the empty store. -/
theorem c3_weak_password_no_writes_witness :
    (0 : Nat) < 2 ∧
    (jobseeker_signup ⟨[], []⟩ sampleForm 0 true (get_password_hash "pw" 5) "tok" 0 7
        true true true true = (.weakPassword 0, ⟨[], []⟩, []) ∧
     (SignupResp.weakPassword 0).status = 400) :=
  ⟨by decide,
   c3_weak_password_no_writes ⟨[], []⟩ sampleForm 0 true (get_password_hash "pw" 5) "tok" 0 7
     true true true true (by decide)⟩

/-- C4: when the account found by token has an expiry in the past, verify-email
returns TokenExpired with status 400 and leaves the store unchanged — the
token, expiry and verification fields keep their stored values. -/
theorem c4_expired_token_no_write (db : List Account) (now : Nat) (updateOk : Bool)
    (token : String) (user : Account) (exp : Nat)
    (hfind : db.find? (fun a => a.email_verification_token == some token) = some user)
    (hexp : user.email_verification_token_expires = some exp)
    (hpast : exp < now) :
    verify_email db now updateOk token = (.tokenExpired, db) ∧
    VerifyResult.tokenExpired.status = 400 := by
  constructor
  · simp [verify_email, hfind, tokenExpiredAt, hexp, hpast]
  · rfl

/-- C4 witness: the theorem applied to the fixture account at time 2000, past
its expiry 1000. -/
theorem c4_expired_token_no_write_witness :
    verify_email [sampleAccount] 2000 true "tok" = (.tokenExpired, [sampleAccount]) ∧
    VerifyResult.tokenExpired.status = 400 :=
  c4_expired_token_no_write [sampleAccount] 2000 true "tok" sampleAccount 1000
    (by decide) (by decide) (by decide)

/-- C5: with distinct per-call salts the hash of the same plaintext differs
across calls, yet verifying a plaintext against its own hash always
succeeds. -/
theorem c5_salted_hash_and_verify (p : String) (s1 s2 : Nat) (h : s1 ≠ s2) :
    get_password_hash p s1 ≠ get_password_hash p s2 ∧
    ∀ (q : String) (s : Nat), verify_password q (some (get_password_hash q s)) = true := by
  refine ⟨fun heq => h (congrArg OpaqueHash.salt heq), fun q s => ?_⟩
  simp [verify_password, get_password_hash]

/-- C5 witness: the theorem applied at salts 1 and 2. -/
theorem c5_salted_hash_and_verify_witness :
    (1 : Nat) ≠ 2 ∧
    (get_password_hash "pw" 1 ≠ get_password_hash "pw" 2 ∧
     ∀ (q : String) (s : Nat), verify_password q (some (get_password_hash q s)) = true) :=
  ⟨by decide, c5_salted_hash_and_verify "pw" 1 2 (by decide)⟩

/-- C7: the login failure for a non-existent email and the login failure for an
existing email with a wrong password are the same response value — the same
401 status and the same low-detail message. -/
theorem c7_no_user_enumeration (db1 db2 : List Account) (n1 n2 : Nat)
    (e1 p1 e2 p2 : String) (user : Account) (stored : Option OpaqueHash)
    (h1 : db1.find? (fun a => a.email == e1) = none)
    (h2 : db2.find? (fun a => a.email == e2) = some user)
    (h3 : user.password = some stored)
    (h4 : verify_password p2 stored = false) :
    login_for_access_token db1 n1 e1 p1 = login_for_access_token db2 n2 e2 p2 ∧
    (login_for_access_token db1 n1 e1 p1).status = 401 ∧
    (login_for_access_token db1 n1 e1 p1).detail = "Incorrect email or password" := by
  have ha : login_for_access_token db1 n1 e1 p1 = .invalidCredentials := by
    simp [login_for_access_token, h1]
  have hb : login_for_access_token db2 n2 e2 p2 = .invalidCredentials := by
    simp [login_for_access_token, h2, h3, h4]
  rw [ha, hb]
  exact ⟨rfl, rfl, rfl⟩

/-- C7 witness: the empty store versus the fixture account queried with a wrong
password. -/
theorem c7_no_user_enumeration_witness :
    login_for_access_token [] 0 "b@x.com" "pw" =
      login_for_access_token [sampleVerified] 0 "a@x.com" "wrong" ∧
    (login_for_access_token [] 0 "b@x.com" "pw").status = 401 ∧
    (login_for_access_token [] 0 "b@x.com" "pw").detail = "Incorrect email or password" :=
  c7_no_user_enumeration [] [sampleVerified] 0 0 "b@x.com" "pw" "a@x.com" "wrong"
    sampleVerified (some (get_password_hash "pw" 5))
    (by decide) (by decide) (by decide) (by decide)

/-- C1 counterexample: a successful consume clears the token fields, so a
second consume with the same token "tok" returns InvalidToken with status 400,
not AlreadyVerified. -/
theorem c1_counterexample :
    (verify_email [sampleAccount] 100 true "tok").1 = .verified ∧
    (verify_email ((verify_email [sampleAccount] 100 true "tok").2) 200 true "tok").1
      = .invalidToken ∧
    (VerifyResult.invalidToken ≠ .alreadyVerified) ∧
    VerifyResult.invalidToken.status = 400 := by
  refine ⟨by decide, by decide, by decide, rfl⟩

/-- C8 counterexample: a resend-verification request in which the store write
succeeds but the email dispatch fails returns RESEND_004 with status 500, not
a 200 success with the failure as data. -/
theorem c8_counterexample :
    (resend_verification_email [sampleAccount] "a@x.com" "t2" 0 true false).1
      = .emailFailed ∧
    ((resend_verification_email [sampleAccount] "a@x.com" "t2" 0 true false).1).status = 500 := by
  refine ⟨by decide, rfl⟩

/-- C9 counterexample: the debug reset-password path hashes and stores a
password whose zxcvbn score is 0, returning success — a stored credential hash
deriving from a password scoring below 2. -/
theorem c9_counterexample :
    (debug_reset_password [sampleAccount] "a@x.com" 0 (get_password_hash "123456" 9) true).1
      = .ok ∧
    Ev.hashPw ∈
      (debug_reset_password [sampleAccount] "a@x.com" 0 (get_password_hash "123456" 9) true).2.2 ∧
    ∃ a ∈ (debug_reset_password [sampleAccount] "a@x.com" 0
        (get_password_hash "123456" 9) true).2.1,
      a.password = some (some (get_password_hash "123456" 9)) := by
  refine ⟨by decide, by decide, by decide⟩

/-- C2, evaluated at the failing input: starting from the empty store, a signup
whose personal-details insert fails and whose compensating delete also fails
produces the very same SIGNUP_005 response and the very same call trace as the
run whose delete succeeds — the delete failure is not surfaced — while the
orphaned account row remains in the store. -/
theorem c2_delete_failure_not_surfaced :
    (jobseeker_signup ⟨[], []⟩ sampleForm 3 true (get_password_hash "pw" 5) "tok" 0 7
        true false false false).1 = .personalFailed ∧
    (jobseeker_signup ⟨[], []⟩ sampleForm 3 true (get_password_hash "pw" 5) "tok" 0 7
        true false true false).1 = .personalFailed ∧
    (jobseeker_signup ⟨[], []⟩ sampleForm 3 true (get_password_hash "pw" 5) "tok" 0 7
        true false false false).2.2 =
      (jobseeker_signup ⟨[], []⟩ sampleForm 3 true (get_password_hash "pw" 5) "tok" 0 7
        true false true false).2.2 ∧
    Ev.deleteJobseeker 7 ∈
      (jobseeker_signup ⟨[], []⟩ sampleForm 3 true (get_password_hash "pw" 5) "tok" 0 7
        true false false false).2.2 ∧
    (jobseeker_signup ⟨[], []⟩ sampleForm 3 true (get_password_hash "pw" 5) "tok" 0 7
        true false false false).2.1.jobseeker.length = 1 ∧
    (jobseeker_signup ⟨[], []⟩ sampleForm 3 true (get_password_hash "pw" 5) "tok" 0 7
        true false true false).2.1.jobseeker.length = 0 := by
  refine ⟨by decide, by decide, by decide, by decide, by decide, by decide⟩

/-- C1 as amended: after a successful consume — which clears the token fields
of the account it verified — a second consume with the same token returns
InvalidToken, provided every account holding that token was the one the first
consume updated. -/
theorem c1_second_consume_invalid_token (db db' : List Account) (now now' : Nat)
    (updateOk : Bool) (token : String)
    (huniq : ∀ a ∈ db, ∀ b ∈ db, a.email_verification_token = some token →
      b.email_verification_token = some token → a.candidate_id = b.candidate_id)
    (hrun : verify_email db now true token = (.verified, db')) :
    (verify_email db' now' updateOk token).1 = .invalidToken := by
  cases hfind : db.find? (fun a => a.email_verification_token == some token) with
  | none =>
    have : verify_email db now true token = (.invalidToken, db) := by
      simp [verify_email, hfind]
    rw [this] at hrun
    simp at hrun
  | some user =>
    by_cases hx : tokenExpiredAt user.email_verification_token_expires now = true
    · have : verify_email db now true token = (.tokenExpired, db) := by
        simp [verify_email, hfind, hx]
      rw [this] at hrun
      simp at hrun
    · by_cases hv : user.is_email_verified = true
      · have : verify_email db now true token = (.alreadyVerified, db) := by
          simp [verify_email, hfind, hx, hv]
        rw [this] at hrun
        simp at hrun
      · have hstep : verify_email db now true token =
            (.verified, db.map (markVerified user.candidate_id now)) := by
          simp [verify_email, hfind, hx, hv]
        rw [hstep] at hrun
        have hdb' : db' = db.map (markVerified user.candidate_id now) :=
          (((Prod.mk.injEq _ _ _ _).mp hrun).2).symm
      -- the second lookup finds nothing: every token-holder has been cleared
        have huser_mem : user ∈ db := List.mem_of_find?_eq_some hfind
        have huser_tok : user.email_verification_token = some token := by
          have := List.find?_some hfind
          simpa using this
        have hnone : db'.find? (fun a => a.email_verification_token == some token) = none := by
          rw [List.find?_eq_none]
          intro x hx'
          rw [hdb'] at hx'
          rcases List.mem_map.mp hx' with ⟨b, hb, rfl⟩
          by_cases hbc : b.candidate_id = user.candidate_id
          · simp [markVerified, hbc]
          · have hmb : markVerified user.candidate_id now b = b := by
              simp [markVerified, hbc]
            rw [hmb]
            simp only [beq_iff_eq]
            intro hbt
            exact hbc (huniq b hb user huser_mem hbt huser_tok)
        simp [verify_email, hnone]

/-- C1 amended witness: the amended theorem applied to the fixture account. -/
theorem c1_second_consume_invalid_token_witness :
    (verify_email ((verify_email [sampleAccount] 100 true "tok").2) 200 true "tok").1
      = .invalidToken :=
  c1_second_consume_invalid_token [sampleAccount]
    ((verify_email [sampleAccount] 100 true "tok").2) 100 200 true "tok"
    (by decide) (by decide)

/-- C6: login performs its checks in order with the specified outcomes —
absent account gives InvalidCredentials (401); an absent stored hash gives
AccountIncomplete (401); a password mismatch gives InvalidCredentials (401);
an unverified email gives EmailNotVerified (403); and when every check passes
a bearer session credential is issued with subject the request email and
expiry 30 minutes after issuance. -/
theorem c6_login_order_and_outcomes (db : List Account) (now : Nat) (email pw : String) :
    (db.find? (fun a => a.email == email) = none →
      login_for_access_token db now email pw = .invalidCredentials ∧
      LoginResp.invalidCredentials.status = 401) ∧
    (∀ user, db.find? (fun a => a.email == email) = some user → user.password = none →
      login_for_access_token db now email pw = .accountIncomplete ∧
      LoginResp.accountIncomplete.status = 401) ∧
    (∀ user stored, db.find? (fun a => a.email == email) = some user →
      user.password = some stored → verify_password pw stored = false →
      login_for_access_token db now email pw = .invalidCredentials ∧
      LoginResp.invalidCredentials.status = 401) ∧
    (∀ user stored, db.find? (fun a => a.email == email) = some user →
      user.password = some stored → verify_password pw stored = true →
      user.is_email_verified = false →
      login_for_access_token db now email pw = .emailNotVerified ∧
      LoginResp.emailNotVerified.status = 403) ∧
    (∀ user stored, db.find? (fun a => a.email == email) = some user →
      user.password = some stored → verify_password pw stored = true →
      user.is_email_verified = true →
      login_for_access_token db now email pw = .token ⟨email, now, now + 30 * 60⟩ ∧
      (LoginResp.token ⟨email, now, now + 30 * 60⟩).status = 200) := by
  refine ⟨?_, ?_, ?_, ?_, ?_⟩
  · intro h
    exact ⟨by simp [login_for_access_token, h], rfl⟩
  · intro user hf hp
    exact ⟨by simp [login_for_access_token, hf, hp], rfl⟩
  · intro user stored hf hp hver
    exact ⟨by simp [login_for_access_token, hf, hp, hver], rfl⟩
  · intro user stored hf hp hver hunv
    exact ⟨by simp [login_for_access_token, hf, hp, hver, hunv], rfl⟩
  · intro user stored hf hp hver hv
    have he : user.email = email := by
      have := List.find?_some hf
      simpa using this
    exact ⟨by simp [login_for_access_token, hf, hp, hver, hv, create_access_token, he], rfl⟩

/-- C6 witness: each of the five branches at a concrete store. -/
theorem c6_login_order_and_outcomes_witness :
    login_for_access_token [] 0 "a@x.com" "pw" = .invalidCredentials ∧
    login_for_access_token [sampleNoPassword] 0 "a@x.com" "pw" = .accountIncomplete ∧
    login_for_access_token [sampleVerified] 0 "a@x.com" "wrong" = .invalidCredentials ∧
    login_for_access_token [sampleAccount] 0 "a@x.com" "pw" = .emailNotVerified ∧
    login_for_access_token [sampleVerified] 0 "a@x.com" "pw"
      = .token ⟨"a@x.com", 0, 0 + 30 * 60⟩ :=
  ⟨((c6_login_order_and_outcomes [] 0 "a@x.com" "pw").1 (by decide)).1,
   ((c6_login_order_and_outcomes [sampleNoPassword] 0 "a@x.com" "pw").2.1
      sampleNoPassword (by decide) (by decide)).1,
   ((c6_login_order_and_outcomes [sampleVerified] 0 "a@x.com" "wrong").2.2.1
      sampleVerified (some (get_password_hash "pw" 5)) (by decide) (by decide) (by decide)).1,
   ((c6_login_order_and_outcomes [sampleAccount] 0 "a@x.com" "pw").2.2.2.1
      sampleAccount (some (get_password_hash "pw" 5)) (by decide) (by decide) (by decide)
      (by decide)).1,
   ((c6_login_order_and_outcomes [sampleVerified] 0 "a@x.com" "pw").2.2.2.2
      sampleVerified (some (get_password_hash "pw" 5)) (by decide) (by decide) (by decide)
      (by decide)).1⟩

/-- C10: when the account found by token has a null expiry column, the expiry
check is skipped — the result is never TokenExpired — and when the account is
not yet verified and the store write succeeds, it is marked verified. -/
theorem c10_null_expiry_skips_check (db : List Account) (now : Nat) (updateOk : Bool)
    (token : String) (user : Account)
    (hfind : db.find? (fun a => a.email_verification_token == some token) = some user)
    (hexp : user.email_verification_token_expires = none) :
    (verify_email db now updateOk token).1 ≠ .tokenExpired ∧
    (user.is_email_verified = false → updateOk = true →
      (verify_email db now updateOk token).1 = .verified ∧
      ∀ a ∈ (verify_email db now updateOk token).2,
        a.candidate_id = user.candidate_id → a.is_email_verified = true) := by
  have h1 : verify_email db now updateOk token =
      (if user.is_email_verified then (.alreadyVerified, db)
       else if updateOk then (.verified, db.map (markVerified user.candidate_id now))
       else (.updateFailed, db)) := by
    simp [verify_email, hfind, tokenExpiredAt, hexp]
  constructor
  · rw [h1]
    split
    · simp
    · split <;> simp
  · intro hv hu
    have h2 : verify_email db now updateOk token =
        (.verified, db.map (markVerified user.candidate_id now)) := by
      rw [h1, hv, hu]
      simp
    rw [h2]
    refine ⟨rfl, ?_⟩
    intro a ha hcid
    rcases List.mem_map.mp ha with ⟨b, hb, rfl⟩
    by_cases hbc : b.candidate_id = user.candidate_id
    · simp [markVerified, hbc]
    · have hmb : markVerified user.candidate_id now b = b := by
        simp [markVerified, hbc]
      rw [hmb] at hcid
      exact absurd hcid hbc

/-- C10 witness: the theorem applied to the fixture account with a null expiry
column. -/
theorem c10_null_expiry_skips_check_witness :
    (verify_email [sampleNullExpiry] 5000 true "tok").1 ≠ .tokenExpired ∧
    (verify_email [sampleNullExpiry] 5000 true "tok").1 = .verified ∧
    ∀ a ∈ (verify_email [sampleNullExpiry] 5000 true "tok").2,
      a.candidate_id = sampleNullExpiry.candidate_id → a.is_email_verified = true := by
  have h := c10_null_expiry_skips_check [sampleNullExpiry] 5000 true "tok" sampleNullExpiry
    (by decide) (by decide)
  exact ⟨h.1, (h.2 (by decide) rfl).1, (h.2 (by decide) rfl).2⟩

/-- C8 as amended: an email-dispatch failure never fails signup — it returns
200 with the failure as data — but resend-verification returns RESEND_004
with status 500 when the dispatch fails. -/
theorem c8_email_failure_signup_ok_resend_500 :
    (∀ (db : DB) (form : SignupForm) (score : Nat) (hashed : OpaqueHash) (vtoken : String)
       (now newCid : Nat),
      2 ≤ score →
      db.jobseeker.any (fun a => a.email == form.email_id) = false →
      db.jobseeker.any (fun a => a.username == form.username) = false →
      (jobseeker_signup db form score true hashed vtoken now newCid true true true false).1
        = .success newCid false ∧
      ((jobseeker_signup db form score true hashed vtoken now newCid true true true false).1).status
        = 200) ∧
    (∀ (db : List Account) (email newToken : String) (now : Nat) (user : Account),
      db.find? (fun a => a.email == email) = some user →
      user.is_email_verified = false →
      (resend_verification_email db email newToken now true false).1 = .emailFailed ∧
      ((resend_verification_email db email newToken now true false).1).status = 500) := by
  constructor
  · intro db form score hashed vtoken now newCid hscore hemail husername
    have hns : ¬ score < 2 := Nat.not_lt.mpr hscore
    constructor
    · simp [jobseeker_signup, validate_password, hns, hemail, husername]
    · simp [jobseeker_signup, validate_password, hns, hemail, husername, SignupResp.status]
  · intro db email newToken now user hfind hunv
    constructor
    · simp [resend_verification_email, hfind, hunv]
    · simp [resend_verification_email, hfind, hunv, ResendResp.status]

/-- C8 amended witness: both branches at concrete inputs — a signup on the
empty store with a failing dispatch still succeeds with status 200, and a
resend for the fixture account with a failing dispatch returns 500. -/
theorem c8_email_failure_witness :
    ((jobseeker_signup ⟨[], []⟩ sampleForm 3 true (get_password_hash "pw" 5) "tok" 0 7
        true true true false).1 = .success 7 false ∧
     ((jobseeker_signup ⟨[], []⟩ sampleForm 3 true (get_password_hash "pw" 5) "tok" 0 7
        true true true false).1).status = 200) ∧
    ((resend_verification_email [sampleAccount] "a@x.com" "t2" 50 true false).1
        = .emailFailed ∧
     ((resend_verification_email [sampleAccount] "a@x.com" "t2" 50 true false).1).status
        = 500) :=
  ⟨c8_email_failure_signup_ok_resend_500.1 ⟨[], []⟩ sampleForm 3 (get_password_hash "pw" 5)
     "tok" 0 7 (by decide) (by decide) (by decide),
   c8_email_failure_signup_ok_resend_500.2 [sampleAccount] "a@x.com" "t2" 50 sampleAccount
     (by decide) (by decide)⟩

/-- C9 as amended: signup scores the plaintext and rejects a weak password
before any external call — in particular before any hashing — but the debug
reset-password path performs no policy validation: whatever the submitted
password's score, it hashes it and stores the hash on the matched account. -/
theorem c9_policy_before_hash_signup_only :
    (∀ (db : DB) (form : SignupForm) (score : Nat) (dobValid : Bool) (hashed : OpaqueHash)
       (vtoken : String) (now newCid : Nat) (insertOk personalOk deleteOk emailOk : Bool),
      score < 2 →
      (jobseeker_signup db form score dobValid hashed vtoken now newCid
          insertOk personalOk deleteOk emailOk).2.2 = []) ∧
    (∀ (db : List Account) (email : String) (score : Nat) (newHash : OpaqueHash)
       (user : Account),
      db.find? (fun a => a.email == email) = some user →
      (debug_reset_password db email score newHash true).1 = .ok ∧
      Ev.hashPw ∈ (debug_reset_password db email score newHash true).2.2 ∧
      ∀ a ∈ (debug_reset_password db email score newHash true).2.1,
        a.email = email → a.password = some (some newHash)) := by
  constructor
  · intro db form score dobValid hashed vtoken now newCid iOk pOk dOk eOk h
    simp [jobseeker_signup, validate_password, h]
  · intro db email score newHash user hfind
    refine ⟨by simp [debug_reset_password, hfind], by simp [debug_reset_password, hfind], ?_⟩
    intro a ha hmail
    simp only [debug_reset_password, hfind, if_true] at ha
    rcases List.mem_map.mp ha with ⟨b, hb, rfl⟩
    by_cases hbe : b.email = email
    · simp [hbe]
    · have hrb : (if b.email == email then
          { b with password := some (some newHash) } else b) = b := by
        simp [hbe]
      rw [hrb] at hmail
      exact absurd hmail hbe

/-- C9 amended witness: both branches at concrete inputs — a score-0 signup
makes no external call, and the debug reset stores the hash of a score-0
password on the fixture account. -/
theorem c9_policy_before_hash_witness :
    (jobseeker_signup ⟨[], []⟩ sampleForm 0 true (get_password_hash "pw" 5) "tok" 0 7
        true true true true).2.2 = [] ∧
    ((debug_reset_password [sampleAccount] "a@x.com" 0 (get_password_hash "123456" 9) true).1
        = .ok ∧
     Ev.hashPw ∈ (debug_reset_password [sampleAccount] "a@x.com" 0
        (get_password_hash "123456" 9) true).2.2 ∧
     ∀ a ∈ (debug_reset_password [sampleAccount] "a@x.com" 0
        (get_password_hash "123456" 9) true).2.1,
       a.email = "a@x.com" → a.password = some (some (get_password_hash "123456" 9))) :=
  ⟨c9_policy_before_hash_signup_only.1 ⟨[], []⟩ sampleForm 0 true (get_password_hash "pw" 5)
     "tok" 0 7 true true true true (by decide),
   c9_policy_before_hash_signup_only.2 [sampleAccount] "a@x.com" 0
     (get_password_hash "123456" 9) sampleAccount (by decide)⟩

end HireQA
